import Mathlib

/-!
Shallow embedding of `sktime/dists_kernels/numba/distances/base/_base.py`:
the abstract `NumbaDistance` class with its static `distance` facade, the
instance method `distance_factory`, the static validator
`_validate_factory_timeseries`, and the abstract specializer
`_distance_factory`.

Modelling conventions:
* numpy arrays live in an explicit store (`Store`); a Python-level value is a
  `PyObject`, and an ndarray argument is a reference into the store.  Threading
  the store explicitly lets us state frame/purity properties about the
  validator.
* numeric contents are modelled as rationals: the base class under
  consideration performs no floating-point arithmetic itself (the concrete
  metrics are abstract), so no rounding behaviour is at stake.
* Python exceptions become an explicit `PyError` sum; control flow that raises
  becomes `Except`.
* `str(x)` interpolation inside the f-string error messages is abstracted to a
  type-level tag (`pyRepr`); the surrounding template text is taken verbatim
  from the source (including its missing-space concatenation artefacts).
* the validator and `distance_factory` additionally return a trace of
  observable events (attribute reads, validator invocations, specializer
  invocations) so that temporal claims ("the specializer is never invoked
  before validation succeeds") are statable.
-/

/-- A numpy ndarray: a shape together with flattened contents.  `ndim` is the
length of the shape, as in numpy. -/
structure NDArray where
  shape : List Nat
  data : List ℚ
deriving DecidableEq

/-- `x.ndim` in numpy: the number of axes. -/
def NDArray.ndim (a : NDArray) : Nat :=
  a.shape.length

/-- The heap of allocated ndarrays; a reference is an index into this list. -/
abbrev Store := List NDArray

/-- Default array used to total out-of-range store lookups (a dangling
reference has no Python counterpart; theorems about array contents take the
reference to be in range). -/
def emptyNDArray : NDArray :=
  { shape := [], data := [] }

/-- A Python-level value as it can be passed to the facade: an ndarray
reference, a plain (possibly nested) list, a float scalar, or an int scalar. -/
inductive PyObject where
  | arrayRef (addr : Nat)
  | pyList (xs : List PyObject)
  | pyFloat (q : ℚ)
  | pyInt (n : Int)

/-- `isinstance(x, np.ndarray)`. -/
def PyObject.isNdarray : PyObject → Bool
  | .arrayRef _ => true
  | _ => false

/-- Python exceptions that can cross the facade boundary in this module. -/
inductive PyError where
  | valueError (msg : String)
  | runtimeError (msg : String)
  | typeError (msg : String)
  | attributeError (msg : String)
deriving DecidableEq

/-- Abstraction of `str(x)` as interpolated into the source's f-string
messages: the value's type-level rendering.  The exact numpy/list rendering of
the contents is immaterial to every property considered here; only the
surrounding template text distinguishes the error kinds. -/
def pyRepr : PyObject → String
  | .arrayRef _ => "ndarray"
  | .pyList _ => "list"
  | .pyFloat _ => "float"
  | .pyInt _ => "int"

/-- Message of the `ValueError` raised when `x` is not a numpy array, with the
source's adjacent-string concatenation (`"...ensure it" "is a 2d numpy..."`)
kept verbatim. -/
def wrongTypeMsg (r : String) : String :=
  "The array " ++ r ++ " is not a numpy array. Please ensure it" ++
    "is a 2d numpy and try again."

/-- Message of the `ValueError` raised when `x.ndim != 2`, concatenated as in
the source. -/
def wrongRankMsg (r : String) : String :=
  "The array " ++ r ++ " has the incorrect number of dimensions." ++
    "Ensure the array has exactly 2 dimensions and try " ++ "again."

/-- Message of the `RuntimeError` raised when the value returned by the
concrete specializer lacks the `signatures` attribute, concatenated as in the
source. -/
def noPythonCompiledMsg : String :=
  "The distance metric specified could not be no_python" ++
    "compiled. Try again and if the problem persists raise" ++ "an issue."

/-- Observable steps inside the validator: the `isinstance` type check and the
`x.ndim` attribute read. -/
inductive VEvent where
  | isinstanceCheck
  | ndimRead
deriving DecidableEq

/-- The callable object returned by a concrete metric's `_distance_factory`:
whether it carries the numba `signatures` attribute (the `hasattr` success
marker checked by the facade), and what calling it on two objects computes. -/
structure PyCallable where
  hasSignatures : Bool
  call : Store → PyObject → PyObject → Except PyError ℚ

/-- Keyword arguments: a finite name-to-value mapping. -/
abbrev Kwargs := List (String × PyObject)

/-- A concrete `NumbaDistance` subclass: implementations of the two abstract
methods.  Metrics are stateless, so each is simply a pair of functions. -/
structure NumbaDistance where
  _distance_factory : Store → PyObject → PyObject → Kwargs → Except PyError PyCallable
  _numba_distance : Store → PyObject → PyObject → Except PyError ℚ

/--
`NumbaDistance._validate_factory_timeseries(x)`:

```
if not isinstance(x, np.ndarray): raise ValueError(f"The array {x} is not ...")
if x.ndim != 2: raise ValueError(f"The array {x} has the incorrect ...")
```

Returns the outcome, the store after the call (the source contains no
assignment, so no branch writes to the store), and the trace of observable
reads (the `isinstance` check, and the `x.ndim` read when reached). -/
def NumbaDistance._validate_factory_timeseries (σ : Store) (x : PyObject) :
    Except PyError Unit × Store × List VEvent :=
  match x with
  | .arrayRef a =>
      if (σ.getD a emptyNDArray).ndim ≠ 2 then
        (.error (.valueError (wrongRankMsg (pyRepr (.arrayRef a)))), σ,
          [.isinstanceCheck, .ndimRead])
      else
        (.ok (), σ, [.isinstanceCheck, .ndimRead])
  | x =>
      (.error (.valueError (wrongTypeMsg (pyRepr x))), σ, [.isinstanceCheck])

/-- Observable steps inside `distance_factory`: an invocation of the validator
on a given argument, and the invocation of the concrete metric's
`_distance_factory`. -/
inductive Event where
  | validateCall (arg : PyObject)
  | specializerCall

/--
`NumbaDistance.distance_factory(self, x, y, **kwargs)`:

```
NumbaDistance._validate_factory_timeseries(x)
NumbaDistance._validate_factory_timeseries(y)
no_python_callable = self._distance_factory(x, y, **kwargs)
if not hasattr(no_python_callable, "signatures"):
    raise RuntimeError("The distance metric specified could not be ...")
return no_python_callable
```

A raised exception aborts the remaining statements, as in Python.  Returns the
outcome, the store after the call, and the trace of validator/specializer
invocations in execution order. -/
def NumbaDistance.distance_factory (self : NumbaDistance) (σ : Store)
    (x y : PyObject) (kwargs : Kwargs) :
    Except PyError PyCallable × Store × List Event :=
  match NumbaDistance._validate_factory_timeseries σ x with
  | (.error e, σ1, _) => (.error e, σ1, [.validateCall x])
  | (.ok _, σ1, _) =>
    match NumbaDistance._validate_factory_timeseries σ1 y with
    | (.error e, σ2, _) => (.error e, σ2, [.validateCall x, .validateCall y])
    | (.ok _, σ2, _) =>
      match self._distance_factory σ2 x y kwargs with
      | .error e =>
          (.error e, σ2, [.validateCall x, .validateCall y, .specializerCall])
      | .ok c =>
          if ¬ c.hasSignatures then
            (.error (.runtimeError noPythonCompiledMsg), σ2,
              [.validateCall x, .validateCall y, .specializerCall])
          else
            (.ok c, σ2, [.validateCall x, .validateCall y, .specializerCall])

/-- `AttributeError` message for looking up `_distance_factory` on a value
that is not a `NumbaDistance` instance (type tag abstracted as in `pyRepr`). -/
def noDistanceFactoryAttrMsg (r : String) : String :=
  r ++ " object has no attribute _distance_factory"

/-- `TypeError` message for the unbound-method call missing its last
positional argument. -/
def missingArgYMsg : String :=
  "distance_factory() missing 1 required positional argument: y"

/-- `TypeError` message when a keyword duplicates a positionally-bound
parameter of the unbound-method call. -/
def multipleValuesMsg (p : String) : String :=
  "distance_factory() got multiple values for argument " ++ p

/--
`NumbaDistance.distance(x, y, **kwargs)` (a `@staticmethod`):

```
dist_callable = NumbaDistance.distance_factory(x, y, **kwargs)
return dist_callable(x, y)
```

`distance_factory` is an *instance* method with signature
`(self, x, y, **kwargs)`, but it is called here unbound, on the class, with
only two positional arguments.  CPython argument binding therefore assigns
`self := x`, `x := y`, and takes parameter `y` from `kwargs` if a key `"y"` is
present — otherwise the call raises `TypeError` before the body runs (and a
`"self"` or `"x"` key raises the multiple-values `TypeError`).  When binding
does succeed, the body runs with `self` bound to the caller's first array:
both validations execute, and then the attribute lookup
`self._distance_factory` raises `AttributeError`, because `self` is an
ndarray/list/scalar, not a metric instance.  The `hasattr` check and the final
`dist_callable(x, y)` invocation are unreachable. -/
def NumbaDistance.distance (σ : Store) (x y : PyObject) (kwargs : Kwargs) :
    Except PyError ℚ :=
  if (kwargs.lookup "self").isSome then
    .error (.typeError (multipleValuesMsg "self"))
  else if (kwargs.lookup "x").isSome then
    .error (.typeError (multipleValuesMsg "x"))
  else
    match kwargs.lookup "y" with
    | none => .error (.typeError missingArgYMsg)
    | some yv =>
      match NumbaDistance._validate_factory_timeseries σ y with
      | (.error e, _, _) => .error e
      | (.ok _, σ1, _) =>
        match NumbaDistance._validate_factory_timeseries σ1 yv with
        | (.error e, _, _) => .error e
        | (.ok _, _, _) =>
            .error (.attributeError (noDistanceFactoryAttrMsg (pyRepr x)))

/-- Sum of pointwise absolute differences over the flattened contents of two
equally-shaped arrays. -/
def sumAbsDiff (xs ys : List ℚ) : ℚ :=
  (List.zipWith (fun p q => |p - q|) xs ys).sum

/-- Modelled from the spec: the concrete distance metrics and their compiled
callables are not under `src/` (only the abstract `_distance_factory`
contract is), so this is the specialized callable of the spec's own example
metric, "sum-of-absolute-difference": it carries the `signatures` success
marker and computes the sum of absolute differences of the two referenced
arrays. -/
def sadCallable : PyCallable where
  hasSignatures := true
  call := fun σ a b =>
    match a, b with
    | .arrayRef i, .arrayRef j =>
        .ok (sumAbsDiff (σ.getD i emptyNDArray).data (σ.getD j emptyNDArray).data)
    | _, _ => .error (.typeError "expected ndarray operands")

/-- Modelled from the spec: the sum-of-absolute-difference metric as a
contract-honouring `NumbaDistance` subclass; its specializer always returns
`sadCallable`, which carries the `signatures` success marker. -/
def sadMetric : NumbaDistance where
  _distance_factory := fun _ _ _ _ => .ok sadCallable
  _numba_distance := fun σ a b => sadCallable.call σ a b

/-- Modelled from the spec: a metric whose compilation backend is forced to
fail, returning a value that does not carry the `signatures` marker (the
"simulated failure" of the spec's failure-transparency property). -/
def unspecializedMetric : NumbaDistance where
  _distance_factory := fun _ _ _ _ =>
    .ok
      { hasSignatures := false
        call := fun _ _ _ => .ok 0 }
  _numba_distance := fun _ _ _ => .ok 0

/-- The four caller-visible outcome families the spec allows for a facade
call returning a scalar: a scalar value, a validation `ValueError`
(`WrongType` / `WrongRank`), a specialization `ValueError`, or the
compilation `RuntimeError`.  Any other exception kind is a raw, unwrapped
escape. -/
def FacadeScalarOutcome (r : Except PyError ℚ) : Prop :=
  (∃ q, r = .ok q) ∨ (∃ s, r = .error (.valueError s)) ∨
    (∃ s, r = .error (.runtimeError s))

/-- A two-array store used for concrete evaluations: the spec's example pair
`x = [[0, 1, 2]]`, `y = [[0, 0, 0]]`, both of shape 1 × 3. -/
def exampleStore : Store :=
  [{ shape := [1, 3], data := [0, 1, 2] }, { shape := [1, 3], data := [0, 0, 0] }]

/-- A store holding a one-dimensional array (rank 1, not 2), for concrete
wrong-rank runs. -/
def badRankStore : Store :=
  [{ shape := [3], data := [0, 1, 2] }]

/-! ### Helper lemmas -/

/-- The validator returns its store argument unchanged on every branch. -/
theorem validate_store_unchanged (σ : Store) (x : PyObject) :
    (NumbaDistance._validate_factory_timeseries σ x).2.1 = σ := by
  cases x with
  | arrayRef a =>
      simp only [NumbaDistance._validate_factory_timeseries]
      split <;> rfl
  | pyList xs => rfl
  | pyFloat q => rfl
  | pyInt n => rfl

/-- The validator succeeds exactly on references to arrays of rank 2. -/
theorem validate_ok_iff (σ : Store) (x : PyObject) :
    (NumbaDistance._validate_factory_timeseries σ x).1 = .ok () ↔
      ∃ a, x = .arrayRef a ∧ (σ.getD a emptyNDArray).ndim = 2 := by
  cases x with
  | arrayRef a =>
      simp only [NumbaDistance._validate_factory_timeseries]
      split
      · rename_i h
        constructor
        · intro hh
          cases hh
        · rintro ⟨b, hb, hnd⟩
          cases hb
          exact absurd hnd h
      · rename_i h
        have hnd := not_ne_iff.mp h
        constructor
        · intro _
          exact ⟨a, rfl, hnd⟩
        · intro _
          rfl
  | pyList xs => simp [NumbaDistance._validate_factory_timeseries]
  | pyFloat q => simp [NumbaDistance._validate_factory_timeseries]
  | pyInt n => simp [NumbaDistance._validate_factory_timeseries]

/-- Reassemble the validator's result triple from its outcome component: the
store component is always the input store. -/
theorem validate_triple_eq (σ : Store) (x : PyObject) (r : Except PyError Unit)
    (t : List VEvent) (h1 : (NumbaDistance._validate_factory_timeseries σ x).1 = r)
    (h2 : (NumbaDistance._validate_factory_timeseries σ x).2.2 = t) :
    NumbaDistance._validate_factory_timeseries σ x = (r, σ, t) := by
  have h3 := validate_store_unchanged σ x
  rcases hv : NumbaDistance._validate_factory_timeseries σ x with ⟨r1, s1, t1⟩
  rw [hv] at h1 h2 h3
  dsimp only at h1 h2 h3
  rw [h1, h2, h3]

/-- Exhaustive case analysis of one `distance_factory` execution: either the
validation of `x` fails and the run stops there; or it passes and the
validation of `y` fails and the run stops there; or both pass, the
specializer runs, and the outcome is the specializer's error, the
compilation `RuntimeError` (marker absent), or the specializer's callable
itself (marker present). -/
theorem distance_factory_cases (self : NumbaDistance) (σ : Store)
    (x y : PyObject) (kwargs : Kwargs) :
    (∃ e, (NumbaDistance._validate_factory_timeseries σ x).1 = .error e ∧
      NumbaDistance.distance_factory self σ x y kwargs =
        (.error e, σ, [.validateCall x])) ∨
    ((NumbaDistance._validate_factory_timeseries σ x).1 = .ok () ∧
      ∃ e, (NumbaDistance._validate_factory_timeseries σ y).1 = .error e ∧
        NumbaDistance.distance_factory self σ x y kwargs =
          (.error e, σ, [.validateCall x, .validateCall y])) ∨
    ((NumbaDistance._validate_factory_timeseries σ x).1 = .ok () ∧
      (NumbaDistance._validate_factory_timeseries σ y).1 = .ok () ∧
      (NumbaDistance.distance_factory self σ x y kwargs).2.1 = σ ∧
      (NumbaDistance.distance_factory self σ x y kwargs).2.2 =
        [.validateCall x, .validateCall y, .specializerCall] ∧
      ((∃ e, self._distance_factory σ x y kwargs = .error e ∧
          (NumbaDistance.distance_factory self σ x y kwargs).1 = .error e) ∨
        (∃ c, self._distance_factory σ x y kwargs = .ok c ∧
          ((c.hasSignatures = false ∧
            (NumbaDistance.distance_factory self σ x y kwargs).1 =
              .error (.runtimeError noPythonCompiledMsg)) ∨
           (c.hasSignatures = true ∧
            (NumbaDistance.distance_factory self σ x y kwargs).1 = .ok c))))) := by
  rcases hvx : NumbaDistance._validate_factory_timeseries σ x with ⟨rx, sx, tx⟩
  have hsx : sx = σ := by
    have h := validate_store_unchanged σ x
    rw [hvx] at h
    exact h
  rw [hsx] at hvx
  cases rx with
  | error e =>
      left
      exact ⟨e, rfl, by simp only [NumbaDistance.distance_factory, hvx]⟩
  | ok u =>
      cases u
      rcases hvy : NumbaDistance._validate_factory_timeseries σ y with ⟨ry, sy, ty⟩
      have hsy : sy = σ := by
        have h := validate_store_unchanged σ y
        rw [hvy] at h
        exact h
      rw [hsy] at hvy
      cases ry with
      | error e =>
          right; left
          exact ⟨rfl, e, rfl,
            by simp only [NumbaDistance.distance_factory, hvx, hvy]⟩
      | ok v =>
          cases v
          right; right
          refine ⟨rfl, rfl, ?_, ?_, ?_⟩
          · cases hdf : self._distance_factory σ x y kwargs with
            | error e => simp [NumbaDistance.distance_factory, hvx, hvy, hdf]
            | ok c =>
                by_cases hc : c.hasSignatures
                · simp [NumbaDistance.distance_factory, hvx, hvy, hdf, hc]
                · simp [NumbaDistance.distance_factory, hvx, hvy, hdf, hc]
          · cases hdf : self._distance_factory σ x y kwargs with
            | error e => simp [NumbaDistance.distance_factory, hvx, hvy, hdf]
            | ok c =>
                by_cases hc : c.hasSignatures
                · simp [NumbaDistance.distance_factory, hvx, hvy, hdf, hc]
                · simp [NumbaDistance.distance_factory, hvx, hvy, hdf, hc]
          · cases hdf : self._distance_factory σ x y kwargs with
            | error e =>
                left
                exact ⟨e, rfl, by simp [NumbaDistance.distance_factory, hvx, hvy, hdf]⟩
            | ok c =>
                right
                refine ⟨c, rfl, ?_⟩
                by_cases hc : c.hasSignatures
                · exact Or.inr ⟨hc,
                    by simp [NumbaDistance.distance_factory, hvx, hvy, hdf, hc]⟩
                · exact Or.inl ⟨by simpa using hc,
                    by simp [NumbaDistance.distance_factory, hvx, hvy, hdf, hc]⟩

/-! ### Claims -/

/-- C1: the spec claims `distance(x, y, **kwargs)` returns the same scalar as
building the callable via `distance_factory(x, y, **kwargs)` and invoking it
on `(x, y)`, succeeding whenever the factory succeeds.  In the code,
`distance` is a `@staticmethod` that calls the *instance* method
`distance_factory` unbound on the class, so `self` consumes `x` and the call
raises `TypeError` before any computation: on the spec's own example pair
(`[[0, 1, 2]]`, `[[0, 0, 0]]`, no kwargs) `distance` yields the `TypeError`,
while the factory path succeeds on the same input and its callable returns
the scalar 3. -/
theorem c1_distance_disagrees_with_factory_path :
    NumbaDistance.distance exampleStore (.arrayRef 0) (.arrayRef 1) [] =
      .error (.typeError missingArgYMsg) ∧
    (NumbaDistance.distance_factory sadMetric exampleStore (.arrayRef 0)
        (.arrayRef 1) []).1 = .ok sadCallable ∧
    sadCallable.call exampleStore (.arrayRef 0) (.arrayRef 1) = .ok 3 := by
  refine ⟨rfl, rfl, ?_⟩
  show Except.ok (sumAbsDiff [0, 1, 2] [0, 0, 0]) = Except.ok 3
  norm_num [sumAbsDiff]

/-- C2: if the metric's `_distance_factory` hands back a value that does not
carry the `signatures` success marker (on a run that reaches the
specializer), `distance_factory` raises the compilation `RuntimeError` — an
error kind distinct from the validation `ValueError`s — and every value
`distance_factory` does return carries the marker. -/
theorem c2_unspecialized_result_raises_compilation_error
    (self : NumbaDistance) (σ : Store) (x y : PyObject) (kwargs : Kwargs) :
    (∀ c, (NumbaDistance.distance_factory self σ x y kwargs).1 = .ok c →
      c.hasSignatures = true) ∧
    (∀ c, (NumbaDistance._validate_factory_timeseries σ x).1 = .ok () →
      (NumbaDistance._validate_factory_timeseries σ y).1 = .ok () →
      self._distance_factory σ x y kwargs = .ok c →
      c.hasSignatures = false →
      (NumbaDistance.distance_factory self σ x y kwargs).1 =
        .error (.runtimeError noPythonCompiledMsg)) ∧
    (∀ m m2, PyError.runtimeError m ≠ PyError.valueError m2) := by
  refine ⟨?_, ?_, fun m m2 h => by cases h⟩
  · intro c hc
    rcases distance_factory_cases self σ x y kwargs with
      ⟨e, _, hdf⟩ | ⟨_, e, _, hdf⟩ | ⟨_, _, _, _, hspec⟩
    · rw [hdf] at hc
      cases hc
    · rw [hdf] at hc
      cases hc
    · rcases hspec with ⟨e, _, hres⟩ | ⟨c0, _, ⟨_, hres⟩ | ⟨hm, hres⟩⟩
      · rw [hres] at hc
        cases hc
      · rw [hres] at hc
        cases hc
      · rw [hres] at hc
        injection hc with h
        rw [← h]
        exact hm
  · intro c hvx hvy hfac hm
    rcases distance_factory_cases self σ x y kwargs with
      ⟨e, he, _⟩ | ⟨_, e, he, _⟩ | ⟨_, _, _, _, hspec⟩
    · rw [he] at hvx
      cases hvx
    · rw [he] at hvy
      cases hvy
    · rcases hspec with ⟨e, hfe, _⟩ | ⟨c0, hfc, ⟨_, hres⟩ | ⟨hm0, _⟩⟩
      · rw [hfac] at hfe
        cases hfe
      · exact hres
      · rw [hfac] at hfc
        injection hfc with h
        rw [← h] at hm0
        rw [hm0] at hm
        cases hm

/-- C2 witness: a simulated compilation failure — a metric whose specializer
returns a marker-less value — makes `distance_factory` raise the compilation
`RuntimeError` on the example pair. -/
theorem c2_unspecialized_result_raises_compilation_error_witness :
    (NumbaDistance.distance_factory unspecializedMetric exampleStore
        (.arrayRef 0) (.arrayRef 1) []).1 =
      .error (.runtimeError noPythonCompiledMsg) :=
  (c2_unspecialized_result_raises_compilation_error unspecializedMetric
      exampleStore (.arrayRef 0) (.arrayRef 1) []).2.1
    { hasSignatures := false, call := fun _ _ _ => .ok 0 }
    rfl rfl rfl rfl

/-- C3: an ndarray whose rank is not 2 fails validation with the WrongRank
`ValueError`, and when such an operand is passed to `distance_factory` in
either position, the metric's `_distance_factory` is never invoked (its
invocation event never appears in the execution trace, for any metric, other
operand and configuration). -/
theorem c3_wrong_rank_blocks_specializer (σ : Store) (a : Nat)
    (h : (σ.getD a emptyNDArray).ndim ≠ 2) :
    (NumbaDistance._validate_factory_timeseries σ (.arrayRef a)).1 =
      .error (.valueError (wrongRankMsg (pyRepr (.arrayRef a)))) ∧
    (∀ self y kwargs, Event.specializerCall ∉
      (NumbaDistance.distance_factory self σ (.arrayRef a) y kwargs).2.2) ∧
    (∀ self w kwargs, Event.specializerCall ∉
      (NumbaDistance.distance_factory self σ w (.arrayRef a) kwargs).2.2) := by
  have hval : (NumbaDistance._validate_factory_timeseries σ (.arrayRef a)).1 =
      .error (.valueError (wrongRankMsg (pyRepr (.arrayRef a)))) := by
    simp only [NumbaDistance._validate_factory_timeseries]
    rw [if_pos h]
  refine ⟨hval, ?_, ?_⟩
  · intro self y kwargs
    rcases distance_factory_cases self σ (.arrayRef a) y kwargs with
      ⟨e, _, hdf⟩ | ⟨hvx, _, _, _⟩ | ⟨hvx, _, _, _, _⟩
    · rw [hdf]
      intro hmem
      simp at hmem
    · rw [hval] at hvx
      cases hvx
    · rw [hval] at hvx
      cases hvx
  · intro self w kwargs
    rcases distance_factory_cases self σ w (.arrayRef a) kwargs with
      ⟨e, _, hdf⟩ | ⟨_, e, _, hdf⟩ | ⟨_, hvy, _, _, _⟩
    · rw [hdf]
      intro hmem
      simp at hmem
    · rw [hdf]
      intro hmem
      simp at hmem
    · rw [hval] at hvy
      cases hvy

/-- C3 witness: a 1-D array (shape `[3]`) is rejected with the WrongRank
error and the specializer of a concrete metric is not invoked. -/
theorem c3_wrong_rank_blocks_specializer_witness :
    (NumbaDistance._validate_factory_timeseries badRankStore (.arrayRef 0)).1 =
      .error (.valueError (wrongRankMsg (pyRepr (.arrayRef 0)))) ∧
    Event.specializerCall ∉
      (NumbaDistance.distance_factory sadMetric badRankStore (.arrayRef 0)
        (.arrayRef 0) []).2.2 :=
  ⟨(c3_wrong_rank_blocks_specializer badRankStore 0 (by decide)).1,
   (c3_wrong_rank_blocks_specializer badRankStore 0 (by decide)).2.1
     sadMetric (.arrayRef 0) []⟩

/-- C4: a value that is not an ndarray fails validation with the WrongType
`ValueError`, which differs from every WrongRank `ValueError` a
wrong-dimension ndarray produces, so the two failures are distinguishable by
the caller. -/
theorem c4_wrong_type_distinct_from_wrong_rank (σ : Store) (x : PyObject)
    (h : x.isNdarray = false) :
    (NumbaDistance._validate_factory_timeseries σ x).1 =
      .error (.valueError (wrongTypeMsg (pyRepr x))) ∧
    ∀ a : Nat, PyError.valueError (wrongTypeMsg (pyRepr x)) ≠
      PyError.valueError (wrongRankMsg (pyRepr (.arrayRef a))) := by
  cases x with
  | arrayRef a => cases h
  | pyList xs =>
      refine ⟨rfl, fun a => ?_⟩
      show PyError.valueError (wrongTypeMsg "list") ≠
        PyError.valueError (wrongRankMsg "ndarray")
      decide
  | pyFloat q =>
      refine ⟨rfl, fun a => ?_⟩
      show PyError.valueError (wrongTypeMsg "float") ≠
        PyError.valueError (wrongRankMsg "ndarray")
      decide
  | pyInt n =>
      refine ⟨rfl, fun a => ?_⟩
      show PyError.valueError (wrongTypeMsg "int") ≠
        PyError.valueError (wrongRankMsg "ndarray")
      decide

/-- C4 witness: a plain (empty) Python list is rejected with the WrongType
error, distinct from the WrongRank error. -/
theorem c4_wrong_type_distinct_from_wrong_rank_witness :
    (NumbaDistance._validate_factory_timeseries [] (.pyList [])).1 =
      .error (.valueError (wrongTypeMsg (pyRepr (.pyList [])))) ∧
    PyError.valueError (wrongTypeMsg (pyRepr (.pyList []))) ≠
      PyError.valueError (wrongRankMsg (pyRepr (.arrayRef 0))) :=
  ⟨(c4_wrong_type_distinct_from_wrong_rank [] (.pyList []) rfl).1,
   (c4_wrong_type_distinct_from_wrong_rank [] (.pyList []) rfl).2 0⟩

/-- C5 counterexample: the claim says every `distance_factory` execution
invokes the validator exactly once on *each* operand.  With an invalid first
operand (a float scalar) the execution stops at the first validation: the
trace holds a single validator invocation, on `x` only — the validator is
never invoked on the second operand `y`, so it is not invoked exactly once on
each operand in this execution. -/
theorem c5_counterexample_first_operand_aborts :
    (NumbaDistance.distance_factory sadMetric exampleStore (.pyFloat 0)
        (.arrayRef 1) []).2.2 = [.validateCall (.pyFloat 0)] ∧
    Event.validateCall (.arrayRef 1) ∉
      (NumbaDistance.distance_factory sadMetric exampleStore (.pyFloat 0)
        (.arrayRef 1) []).2.2 := by
  have htr : (NumbaDistance.distance_factory sadMetric exampleStore (.pyFloat 0)
      (.arrayRef 1) []).2.2 = [Event.validateCall (.pyFloat 0)] := rfl
  refine ⟨htr, ?_⟩
  rw [htr]
  intro hmem
  simp at hmem

/-- C5 (amended): in every `distance_factory` execution the validator runs at
most once per operand and in order — on `x` first, then on `y` exactly when
`x`'s validation succeeded — and the specializer is invoked only after both
validations succeed, at which point the validator has run exactly once on
each operand, as separate checks. -/
theorem c5_validation_order (self : NumbaDistance) (σ : Store)
    (x y : PyObject) (kwargs : Kwargs) :
    ((NumbaDistance.distance_factory self σ x y kwargs).2.2 =
        [.validateCall x] ∧
      (NumbaDistance._validate_factory_timeseries σ x).1 ≠ .ok ()) ∨
    ((NumbaDistance.distance_factory self σ x y kwargs).2.2 =
        [.validateCall x, .validateCall y] ∧
      (NumbaDistance._validate_factory_timeseries σ x).1 = .ok () ∧
      (NumbaDistance._validate_factory_timeseries σ y).1 ≠ .ok ()) ∨
    ((NumbaDistance.distance_factory self σ x y kwargs).2.2 =
        [.validateCall x, .validateCall y, .specializerCall] ∧
      (NumbaDistance._validate_factory_timeseries σ x).1 = .ok () ∧
      (NumbaDistance._validate_factory_timeseries σ y).1 = .ok ()) := by
  rcases distance_factory_cases self σ x y kwargs with
    ⟨e, he, hdf⟩ | ⟨hvx, e, he, hdf⟩ | ⟨hvx, hvy, _, htr, _⟩
  · left
    refine ⟨by rw [hdf], ?_⟩
    rw [he]
    intro hh
    cases hh
  · right; left
    refine ⟨by rw [hdf], hvx, ?_⟩
    rw [he]
    intro hh
    cases hh
  · right; right
    exact ⟨htr, hvx, hvy⟩

/-- C6: the validator is a pure check: it leaves the store — and hence every
array's shape and contents — unchanged, whether validation succeeds or
fails. -/
theorem c6_validator_is_pure (σ : Store) (x : PyObject) :
    (NumbaDistance._validate_factory_timeseries σ x).2.1 = σ ∧
    ∀ a, ((NumbaDistance._validate_factory_timeseries σ x).2.1).getD a
        emptyNDArray = σ.getD a emptyNDArray := by
  refine ⟨validate_store_unchanged σ x, fun a => ?_⟩
  rw [validate_store_unchanged σ x]

/-- C7: the spec's outcome taxonomy says every facade call yields a scalar
(resp. a callable) or one of the three design error kinds (WrongType,
WrongRank, Specialization/CompilationError).  The `distance` entry point,
however, raises a raw `TypeError` on the spec's own valid example input — an
unwrapped fifth outcome outside the taxonomy, caused by calling the instance
method `distance_factory` unbound on the class. -/
theorem c7_distance_outcome_escapes_taxonomy :
    ¬ FacadeScalarOutcome
        (NumbaDistance.distance exampleStore (.arrayRef 0) (.arrayRef 1) []) := by
  intro h
  have hr : NumbaDistance.distance exampleStore (.arrayRef 0) (.arrayRef 1) [] =
      .error (.typeError missingArgYMsg) := rfl
  rw [hr] at h
  rcases h with ⟨q, hq⟩ | ⟨s, hs⟩ | ⟨s, hs⟩
  · cases hq
  · injection hs with hv
    cases hv
  · injection hs with hv
    cases hv

/-- C8: specialization is deterministic — two `distance_factory` invocations
with the same metric, store, operands and configuration yield callables that
agree on every input triple. -/
theorem c8_specialization_deterministic (self : NumbaDistance) (σ : Store)
    (x y : PyObject) (kwargs : Kwargs) (c1 c2 : PyCallable)
    (h1 : (NumbaDistance.distance_factory self σ x y kwargs).1 = .ok c1)
    (h2 : (NumbaDistance.distance_factory self σ x y kwargs).1 = .ok c2) :
    ∀ τ a b, c1.call τ a b = c2.call τ a b := by
  rw [h1] at h2
  injection h2 with h
  rw [h]
  intro τ a b
  rfl

/-- C8 witness: two builds of the example metric's callable agree on the
example pair. -/
theorem c8_specialization_deterministic_witness :
    sadCallable.call exampleStore (.arrayRef 0) (.arrayRef 1) =
      sadCallable.call exampleStore (.arrayRef 0) (.arrayRef 1) :=
  c8_specialization_deterministic sadMetric exampleStore (.arrayRef 0)
    (.arrayRef 1) [] sadCallable sadCallable rfl rfl exampleStore
    (.arrayRef 0) (.arrayRef 1)

/-- C9: inside the validator the type check strictly precedes the rank
check: every run's first observable step is the `isinstance` check, and on a
non-ndarray the run stops there with the WrongType error — `x.ndim` is never
read. -/
theorem c9_type_check_precedes_rank_check (σ : Store) (x : PyObject)
    (h : x.isNdarray = false) :
    (NumbaDistance._validate_factory_timeseries σ x).1 =
      .error (.valueError (wrongTypeMsg (pyRepr x))) ∧
    (NumbaDistance._validate_factory_timeseries σ x).2.2 = [.isinstanceCheck] ∧
    VEvent.ndimRead ∉ (NumbaDistance._validate_factory_timeseries σ x).2.2 ∧
    (∀ σ2 z, ((NumbaDistance._validate_factory_timeseries σ2 z).2.2).head? =
      some .isinstanceCheck) := by
  have hgen : ∀ σ2 z,
      ((NumbaDistance._validate_factory_timeseries σ2 z).2.2).head? =
        some VEvent.isinstanceCheck := by
    intro σ2 z
    cases z with
    | arrayRef a =>
        simp only [NumbaDistance._validate_factory_timeseries]
        split <;> rfl
    | pyList xs => rfl
    | pyFloat q => rfl
    | pyInt n => rfl
  cases x with
  | arrayRef a => cases h
  | pyList xs =>
      refine ⟨rfl, rfl, ?_, hgen⟩
      intro hmem
      simp [NumbaDistance._validate_factory_timeseries] at hmem
  | pyFloat q =>
      refine ⟨rfl, rfl, ?_, hgen⟩
      intro hmem
      simp [NumbaDistance._validate_factory_timeseries] at hmem
  | pyInt n =>
      refine ⟨rfl, rfl, ?_, hgen⟩
      intro hmem
      simp [NumbaDistance._validate_factory_timeseries] at hmem

/-- C9 witness: validating the scalar `7` fails with WrongType and its trace
is the lone `isinstance` check — no `ndim` read. -/
theorem c9_type_check_precedes_rank_check_witness :
    (NumbaDistance._validate_factory_timeseries [] (.pyInt 7)).1 =
      .error (.valueError (wrongTypeMsg (pyRepr (.pyInt 7)))) ∧
    (NumbaDistance._validate_factory_timeseries [] (.pyInt 7)).2.2 =
      [.isinstanceCheck] :=
  ⟨(c9_type_check_precedes_rank_check [] (.pyInt 7) rfl).1,
   (c9_type_check_precedes_rank_check [] (.pyInt 7) rfl).2.1⟩

/-- C10: when `distance_factory` succeeds, the callable it returns is exactly
the object its metric's `_distance_factory` produced — no wrapping, copying
or substitution on the success path. -/
theorem c10_success_returns_specializer_object_unchanged
    (self : NumbaDistance) (σ : Store) (x y : PyObject) (kwargs : Kwargs)
    (c : PyCallable)
    (h : (NumbaDistance.distance_factory self σ x y kwargs).1 = .ok c) :
    self._distance_factory σ x y kwargs = .ok c := by
  rcases distance_factory_cases self σ x y kwargs with
    ⟨e, _, hdf⟩ | ⟨_, e, _, hdf⟩ | ⟨_, _, _, _, hspec⟩
  · rw [hdf] at h
    cases h
  · rw [hdf] at h
    cases h
  · rcases hspec with ⟨e, _, hres⟩ | ⟨c0, hfc, ⟨_, hres⟩ | ⟨_, hres⟩⟩
    · rw [hres] at h
      cases h
    · rw [hres] at h
      cases h
    · rw [hres] at h
      injection h with hco
      rw [hco] at hfc
      exact hfc

/-- C10 witness: the callable handed out for the example metric is the very
`sadCallable` its specializer produced. -/
theorem c10_success_returns_specializer_object_unchanged_witness :
    sadMetric._distance_factory exampleStore (.arrayRef 0) (.arrayRef 1) [] =
      .ok sadCallable :=
  c10_success_returns_specializer_object_unchanged sadMetric exampleStore
    (.arrayRef 0) (.arrayRef 1) [] sadCallable rfl
